import Mathlib

/-!
Verification of the blip0 CLI's core logic: the JSON template-substitution
engine (src/lib/template-engine.ts), the on-disk session registry and user
config store (src/lib/config-manager.ts), the runtime session manager
(src/lib/runtime-manager.ts), the whale-alert start flow
(src/commands/whale-alert.ts) and the Stellar contract spec parser
(src/lib/contract-introspection.ts).

Embedding conventions:
- JavaScript strings are `List Char`; string literals are written via
  `String.data` except where the text would contain brace characters, in
  which case explicit character lists are used.
- External collaborators (the JSON.parse / JSON.stringify builtins, the OS
  process table, the clock, Math.random, the spawned binary) are parameters
  of the definitions, never modelled from the spec.
- The on-disk state touched by the commands is an explicit `Fs` record that
  the operations thread through.
- Recursive string scanners carry an explicit fuel argument equal to the
  scanned string's length, so that every definition is structurally
  recursive and kernel-evaluable; lemmas below relate the fueled form to
  the intended recursion.
-/

/-- ASCII lower-casing of a single character, as JS `toLowerCase` acts on
the ASCII range (the contract and template names in this program are
ASCII). -/
def toLowerChar (c : Char) : Char :=
  if 'A' ≤ c ∧ c ≤ 'Z' then Char.ofNat (c.toNat + 32) else c

/-- ASCII upper-casing of a single character, as JS `toUpperCase` acts on
the ASCII range. -/
def toUpperChar (c : Char) : Char :=
  if 'a' ≤ c ∧ c ≤ 'z' then Char.ofNat (c.toNat - 32) else c

/-- Lower-case a whole string (JS `String.prototype.toLowerCase`, ASCII
range). -/
def toLowerStr (s : List Char) : List Char := s.map toLowerChar

/-- ASCII whitespace characters matched by the JS regex class `\s`. -/
def isJsWhitespace (c : Char) : Bool :=
  c = ' ' || c = '\t' || c = '\n' || c = '\r' || c = Char.ofNat 11 || c = Char.ofNat 12

/-- State machine for `replace(/\s+/g, "_")`: the flag records whether the
previous character was whitespace, so each maximal whitespace run emits a
single underscore. -/
def collapseWsAux : Bool → List Char → List Char
  | _, [] => []
  | prevWs, c :: rest =>
    if isJsWhitespace c then
      if prevWs then collapseWsAux true rest
      else '_' :: collapseWsAux true rest
    else c :: collapseWsAux false rest

/-- JS `replace(/\s+/g, "_")`: every maximal run of whitespace becomes one
underscore. -/
def collapseWsToUnderscore (s : List Char) : List Char := collapseWsAux false s

/-- Decimal rendering of a JS number that is an integer, as template-string
interpolation renders it. -/
def intRepr : Int → List Char
  | Int.ofNat m => (Nat.repr m).data
  | Int.negSucc m => '-' :: (Nat.repr (m + 1)).data

/-! ## Template engine (src/lib/template-engine.ts) -/

/-- Placeholder pattern for a key: the key wrapped in double braces, the
literal string the regex built by `substituteVars` matches. -/
def placeholder (key : List Char) : List Char := '{' :: '{' :: (key ++ ['}', '}'])

/-- ECMAScript GetSubstitution applied to a string replacement value for a
regex with no capture groups and no named groups (the shape of the regexes
`substituteVars` builds): in the replacement template, a doubled dollar
yields one dollar, dollar-ampersand yields the matched text,
dollar-backtick yields the part of the subject before the match,
dollar-apostrophe the part after it; every other character — including a
lone or trailing dollar, and dollar-digit since there are no captures — is
literal. The backtick and apostrophe characters are written by code point
(96 and 39). -/
def getSubstitution (matched before after : List Char) : List Char → List Char
  | [] => []
  | c :: rest =>
    if c = '$' then
      match rest with
      | [] => ['$']
      | d :: rest' =>
        if d = '$' then '$' :: getSubstitution matched before after rest'
        else if d = '&' then matched ++ getSubstitution matched before after rest'
        else if d = Char.ofNat 96 then before ++ getSubstitution matched before after rest'
        else if d = Char.ofNat 39 then after ++ getSubstitution matched before after rest'
        else '$' :: d :: getSubstitution matched before after rest'
    else c :: getSubstitution matched before after rest

/-- Fueled scanner for `String.prototype.replace` with a global regex whose
pattern is the literal string `pat` and whose replacement is the string
`rep`: the subject is scanned left to right, each non-overlapping
occurrence of `pat` is replaced by the GetSubstitution expansion of `rep`
(relative to the subject text before and after that occurrence), and
replacement output is never rescanned. `before` accumulates the subject
text already passed, for GetSubstitution. The fuel is an upper bound on the
scanned length; callers always pass the subject's length, which suffices
for any non-empty `pat`. -/
def replaceAllGo (pat rep : List Char) : Nat → List Char → List Char → List Char
  | _, _, [] => []
  | 0, _, s => s
  | fuel + 1, before, c :: rest =>
    if pat.isPrefixOf (c :: rest) then
      getSubstitution pat before ((c :: rest).drop pat.length) rep
        ++ replaceAllGo pat rep fuel (before ++ pat) ((c :: rest).drop pat.length)
    else
      c :: replaceAllGo pat rep fuel (before ++ [c]) rest

/-- JS `result.replace(new RegExp(escaped pattern, "g"), rep)`: global
substring replacement with GetSubstitution processing of the replacement
value. -/
def replaceAll (pat rep s : List Char) : List Char :=
  replaceAllGo pat rep s.length [] s

/-- Whether `pat` occurs as a contiguous substring of the scanned string
(JS `String.prototype.includes` for the patterns used here). -/
def containsPat (pat : List Char) : List Char → Bool
  | [] => false
  | c :: rest => pat.isPrefixOf (c :: rest) || containsPat pat rest

/-- Loop body of `substituteVars`: for each key/value entry in order,
replace every occurrence of the key's placeholder in the current result. -/
def substituteEntries (template : List Char) (entries : List (List Char × List Char)) :
    List Char :=
  entries.foldl (fun result kv => replaceAll (placeholder kv.1) kv.2 result) template

/-! ## Data model (src/types/index.ts) -/

/-- Notification channel enum of `UserConfig.notificationType`. -/
inductive NotificationType where
  | discord
  | telegram
  | slack
  | webhook
deriving DecidableEq, Repr

/-- String value of the notification channel, as the JS string union. -/
def notificationTypeStr : NotificationType → List Char
  | NotificationType.discord => "discord".data
  | NotificationType.telegram => "telegram".data
  | NotificationType.slack => "slack".data
  | NotificationType.webhook => "webhook".data

/-- UserConfig record stored per tool under the configs directory. -/
structure UserConfig where
  network : List Char
  contractAddress : List Char
  contractName : Option (List Char)
  threshold : List Char
  notificationType : NotificationType
  webhookUrl : List Char
deriving DecidableEq, Repr

/-- TemplateVars object: nine fields always assigned by `buildTemplateVars`
plus the two Telegram fields that are only assigned when Telegram
credentials parse. -/
structure TemplateVars where
  NETWORK_SLUG : List Char
  NETWORK_NAME : List Char
  CONTRACT_ADDRESS : List Char
  CONTRACT_NAME : List Char
  THRESHOLD : List Char
  WEBHOOK_URL : List Char
  TRIGGER_ID : List Char
  TRIGGER_TYPE : List Char
  MONITOR_NAME : List Char
  TELEGRAM_TOKEN : Option (List Char)
  TELEGRAM_CHAT_ID : Option (List Char)
deriving DecidableEq, Repr

/-- JS `Object.entries` on a TemplateVars object: the nine literal fields in
declaration order, then the Telegram fields when they were assigned. -/
def varsEntries (v : TemplateVars) : List (List Char × List Char) :=
  [("NETWORK_SLUG".data, v.NETWORK_SLUG),
   ("NETWORK_NAME".data, v.NETWORK_NAME),
   ("CONTRACT_ADDRESS".data, v.CONTRACT_ADDRESS),
   ("CONTRACT_NAME".data, v.CONTRACT_NAME),
   ("THRESHOLD".data, v.THRESHOLD),
   ("WEBHOOK_URL".data, v.WEBHOOK_URL),
   ("TRIGGER_ID".data, v.TRIGGER_ID),
   ("TRIGGER_TYPE".data, v.TRIGGER_TYPE),
   ("MONITOR_NAME".data, v.MONITOR_NAME)]
  ++ (match v.TELEGRAM_TOKEN with
      | some t => [("TELEGRAM_TOKEN".data, t)]
      | none => [])
  ++ (match v.TELEGRAM_CHAT_ID with
      | some c => [("TELEGRAM_CHAT_ID".data, c)]
      | none => [])

/-- Function `substituteVars(template, vars)`: iterates `Object.entries`
of the variable object in insertion order and globally replaces each key's
double-brace placeholder with the value. -/
def substituteVars (template : List Char) (vars : TemplateVars) : List Char :=
  substituteEntries template (varsEntries vars)

/-- One-pass simultaneous substitution, following the claim's words for C2:
scanning the template once from the left, every occurrence of a key's
placeholder is replaced by that key's value exactly as given, and all other
characters of the template are left unchanged. Fueled like `replaceAllGo`. -/
def specSubstituteGo (entries : List (List Char × List Char)) :
    Nat → List Char → List Char
  | _, [] => []
  | 0, s => s
  | fuel + 1, c :: rest =>
    match entries.find? (fun kv => (placeholder kv.1).isPrefixOf (c :: rest)) with
    | some kv => kv.2 ++ specSubstituteGo entries fuel ((c :: rest).drop (placeholder kv.1).length)
    | none => c :: specSubstituteGo entries fuel rest

/-- Simultaneous literal replacement over a set of entries; comparison
point for the claim that `substituteVars` replaces every occurrence of each
placeholder in the template while leaving other template characters
unchanged. -/
def specSubstitute (entries : List (List Char × List Char)) (template : List Char) :
    List Char :=
  specSubstituteGo entries template.length template

/-! ## Network presets (src/lib/config-manager.ts) -/

/-- Network type union of a preset. -/
inductive NetType where
  | stellar
  | evm
deriving DecidableEq, Repr

/-- NetworkPreset record. -/
structure NetworkPreset where
  slug : List Char
  name : List Char
  netType : NetType
  rpcUrl : List Char
  networkPassphrase : Option (List Char)
  chainId : Option Nat
  blockTimeMs : Nat
  explorerUrl : List Char
deriving DecidableEq, Repr

/-- NETWORK_PRESETS table, keyed by slug, as declared in config-manager. -/
def NETWORK_PRESETS : List (List Char × NetworkPreset) :=
  [("stellar_mainnet".data,
    { slug := "stellar_mainnet".data
      name := "Stellar Mainnet".data
      netType := NetType.stellar
      rpcUrl := "https://stellar-soroban-public.nodies.app".data
      networkPassphrase := some "Public Global Stellar Network ; September 2015".data
      chainId := none
      blockTimeMs := 5000
      explorerUrl := "https://stellar.expert/explorer/public".data }),
   ("stellar_testnet".data,
    { slug := "stellar_testnet".data
      name := "Stellar Testnet".data
      netType := NetType.stellar
      rpcUrl := "https://stellar-soroban-testnet-public.nodies.app".data
      networkPassphrase := some "Test SDF Network ; September 2015".data
      chainId := none
      blockTimeMs := 5000
      explorerUrl := "https://stellar.expert/explorer/testnet".data }),
   ("ethereum_mainnet".data,
    { slug := "ethereum_mainnet".data
      name := "Ethereum Mainnet".data
      netType := NetType.evm
      rpcUrl := "https://eth.llamarpc.com".data
      networkPassphrase := none
      chainId := some 1
      blockTimeMs := 12000
      explorerUrl := "https://etherscan.io".data })]

/-- Result of the JS property read `NETWORK_PRESETS[slug]` as the
`!networkPreset` guard observes it: a preset from an own key, a truthy
value inherited from `Object.prototype` (the table is a plain object
literal, so the prototype chain is consulted), or undefined. The inherited
case carries the value's own `name` property — the method's function name,
`Object` for `constructor`, and absent for the plain object `__proto__`
yields — which is the only property besides `slug` the flow later reads. -/
inductive PresetLookup where
  | ownPreset (preset : NetworkPreset)
  | inherited (jsName : Option (List Char))
  | absent
deriving DecidableEq, Repr

/-- Members of `Object.prototype` (as in Node), each with the `name`
property of the value `NETWORK_PRESETS[key]` evaluates to. -/
def OBJECT_PROTOTYPE_MEMBERS : List (List Char × Option (List Char)) :=
  [("constructor".data, some "Object".data),
   ("hasOwnProperty".data, some "hasOwnProperty".data),
   ("isPrototypeOf".data, some "isPrototypeOf".data),
   ("propertyIsEnumerable".data, some "propertyIsEnumerable".data),
   ("toLocaleString".data, some "toLocaleString".data),
   ("toString".data, some "toString".data),
   ("valueOf".data, some "valueOf".data),
   ("__defineGetter__".data, some "__defineGetter__".data),
   ("__defineSetter__".data, some "__defineSetter__".data),
   ("__lookupGetter__".data, some "__lookupGetter__".data),
   ("__lookupSetter__".data, some "__lookupSetter__".data),
   ("__proto__".data, none)]

/-- Record lookup `NETWORK_PRESETS[slug]`: an own key shadows the prototype;
otherwise the `Object.prototype` member of that name is returned (truthy),
and only a name matching neither is undefined. -/
def lookupPreset (slug : List Char) : PresetLookup :=
  match NETWORK_PRESETS.find? (fun kv => kv.1 = slug) with
  | some kv => PresetLookup.ownPreset kv.2
  | none =>
    match OBJECT_PROTOTYPE_MEMBERS.find? (fun kv => kv.1 = slug) with
    | some kv => PresetLookup.inherited kv.2
    | none => PresetLookup.absent

/-! ## buildTemplateVars (src/lib/template-engine.ts) -/

/-- Parsed result of `JSON.parse` applied to the Telegram credential string:
the two properties read off the parsed object, each possibly absent. -/
structure TelegramParsed where
  token : Option (List Char)
  chatId : Option (List Char)
deriving DecidableEq, Repr

/-- Function `generateTriggerId(tool, notificationType)`; `Date.now()` is
the external clock, passed in as `now`. -/
def generateTriggerId (tool notificationType : List Char) (now : Nat) : List Char :=
  tool ++ '_' :: (notificationType ++ '_' :: (Nat.repr now).data)

/-- JS `s.charAt(0).toUpperCase()`: empty string stays empty, otherwise the
first character upper-cased. -/
def charAt0Upper : List Char → List Char
  | [] => []
  | c :: _ => [toUpperChar c]

/-- JS `s.replace("-", " ")`: only the first dash is replaced. -/
def replaceFirstDashWithSpace : List Char → List Char
  | [] => []
  | c :: rest => if c = '-' then ' ' :: rest else c :: replaceFirstDashWithSpace rest

/-- JS `a || b` on an optional string: the fallback is used when the string
is absent or empty (the empty string is falsy). -/
def jsOrElse (primary : Option (List Char)) (fallback : List Char) : List Char :=
  match primary with
  | some s => if s = [] then fallback else s
  | none => fallback

/-- Function `buildTemplateVars(tool, userConfig, networkPreset)`. The
external `JSON.parse` of the Telegram credential string is the parameter
`parseTelegramJson` (`none` models a parse exception, which the source
swallows, leaving the Telegram fields unassigned). -/
def buildTemplateVars (parseTelegramJson : List Char → Option TelegramParsed) (now : Nat)
    (tool : List Char) (userConfig : UserConfig) (networkPreset : NetworkPreset) :
    TemplateVars :=
  let triggerId :=
    generateTriggerId tool (notificationTypeStr userConfig.notificationType) now
  let monitorName :=
    charAt0Upper tool ++ replaceFirstDashWithSpace (tool.drop 1)
      ++ " - ".data ++ jsOrElse userConfig.contractName (userConfig.contractAddress.take 8)
  let vars : TemplateVars :=
    { NETWORK_SLUG := networkPreset.slug
      NETWORK_NAME := networkPreset.name
      CONTRACT_ADDRESS := userConfig.contractAddress
      CONTRACT_NAME :=
        jsOrElse userConfig.contractName (userConfig.contractAddress.take 12 ++ "...".data)
      THRESHOLD := userConfig.threshold
      WEBHOOK_URL := userConfig.webhookUrl
      TRIGGER_ID := triggerId
      TRIGGER_TYPE := notificationTypeStr userConfig.notificationType
      MONITOR_NAME := monitorName
      TELEGRAM_TOKEN := none
      TELEGRAM_CHAT_ID := none }
  if userConfig.notificationType = NotificationType.telegram then
    match parseTelegramJson userConfig.webhookUrl with
    | some tc => { vars with TELEGRAM_TOKEN := tc.token, TELEGRAM_CHAT_ID := tc.chatId }
    | none => vars
  else vars

/-! ## Session registry and config store (src/lib/config-manager.ts) -/

/-- Session status enum. -/
inductive SessionStatus where
  | running
  | stopped
  | error
deriving DecidableEq, Repr

/-- SessionInfo record kept in the sessions file. `startedAt` is the start
timestamp in epoch milliseconds. -/
structure SessionInfo where
  id : List Char
  tool : List Char
  configPath : List Char
  pid : Option Nat
  containerId : Option (List Char)
  startedAt : Nat
  status : SessionStatus
deriving DecidableEq, Repr

/-- Function `loadSessions()`: the sessions file's parsed content, or the
empty list when the file does not exist. The argument is the file state
(`none` when absent). -/
def loadSessions : Option (List SessionInfo) → List SessionInfo
  | none => []
  | some sessions => sessions

/-- Function `saveSessions(sessions)`: writes the whole list, so the file
now exists with exactly that content. -/
def saveSessions (sessions : List SessionInfo) : Option (List SessionInfo) :=
  some sessions

/-- Function `addSession(session)`: load all, push, save. -/
def addSession (file : Option (List SessionInfo)) (session : SessionInfo) :
    Option (List SessionInfo) :=
  saveSessions (loadSessions file ++ [session])

/-- JS `sessions.find(s => s.id === sessionId)` followed by mutation of the
found element in place: only the first record with the id is rewritten. -/
def updateFirst (sessions : List SessionInfo) (sessionId : List Char)
    (f : SessionInfo → SessionInfo) : List SessionInfo :=
  match sessions with
  | [] => []
  | s :: rest =>
    if s.id = sessionId then f s :: rest else s :: updateFirst rest sessionId f

/-- Application of the optional `extra` argument of `updateSessionStatus`:
JS truthiness means a pid of 0 or an empty container id is not applied. -/
def applyExtra (s : SessionInfo) (extra : Option (Option Nat × Option (List Char))) :
    SessionInfo :=
  match extra with
  | none => s
  | some (epid, ecid) =>
    let s1 :=
      match epid with
      | some p => if p ≠ 0 then { s with pid := some p } else s
      | none => s
    match ecid with
    | some c => if c ≠ [] then { s1 with containerId := some c } else s1
    | none => s1

/-- Function `updateSessionStatus(sessionId, status, extra?)`: the file is
rewritten only when a record with the id exists, and only the first such
record is changed. -/
def updateSessionStatus (file : Option (List SessionInfo)) (sessionId : List Char)
    (status : SessionStatus) (extra : Option (Option Nat × Option (List Char))) :
    Option (List SessionInfo) :=
  let sessions := loadSessions file
  match sessions.find? (fun s => s.id = sessionId) with
  | some _ =>
    saveSessions
      (updateFirst sessions sessionId (fun s => applyExtra { s with status := status } extra))
  | none => file

/-- Function `removeSession(sessionId)`: keeps exactly the records whose id
differs and saves the filtered list. -/
def removeSession (file : Option (List SessionInfo)) (sessionId : List Char) :
    Option (List SessionInfo) :=
  saveSessions ((loadSessions file).filter (fun s => decide (s.id ≠ sessionId)))

/-- State of the per-tool config directory: the stored UserConfig value at
each file path, `none` where no file exists. `saveUserConfig` serialises
with `JSON.stringify` and `loadUserConfig` parses the text back; the
builtin pair is the external collaborator, so the store holds the record
itself. -/
def ConfigStore : Type := List Char → Option UserConfig

/-- Path `CONFIGS_DIR/tool.json` (relative to the configs directory). -/
def configPath (tool : List Char) : List Char := tool ++ ".json".data

/-- Function `saveUserConfig(tool, config)`: writes the serialised record at
the tool's config path. -/
def saveUserConfig (store : ConfigStore) (tool : List Char) (config : UserConfig) :
    ConfigStore :=
  fun path => if path = configPath tool then some config else store path

/-- Function `loadUserConfig(tool)`: `null` when the file does not exist,
the parsed record otherwise. -/
def loadUserConfig (store : ConfigStore) (tool : List Char) : Option UserConfig :=
  store (configPath tool)

/-! ## Parsed JSON documents and the session filesystem -/

/-- JSON value, the shape of a parsed template document. -/
inductive Json where
  | null
  | bool (b : Bool)
  | num (n : Int)
  | str (s : List Char)
  | arr (items : List Json)
  | obj (entries : List (List Char × Json))

/-- JS property read `j[key]` on a parsed JSON value: an error for `null`
(property access on null throws), the entry for an object, `undefined`
(here `none`) otherwise. -/
def jsGetProp (j : Json) (key : List Char) : Except Unit (Option Json) :=
  match j with
  | Json.null => Except.error ()
  | Json.obj entries =>
    Except.ok ((entries.find? (fun kv => kv.1 = key)).map (fun kv => kv.2))
  | _ => Except.ok none

/-- JS `Object.keys`: property names of an object, index strings of an
array, empty for primitives. -/
def jsKeys : Json → List (List Char)
  | Json.obj entries => entries.map (fun kv => kv.1)
  | Json.arr items => (List.range items.length).map (fun i => (Nat.repr i).data)
  | _ => []

/-- JS template-literal coercion of a value to a string. Array elements are
joined with commas; a null element inside an array is rendered here as the
word null, where JS renders it empty — a corner no claim touches. -/
def jsValueToString : Json → List Char
  | Json.null => "null".data
  | Json.bool true => "true".data
  | Json.bool false => "false".data
  | Json.num n => intRepr n
  | Json.str s => s
  | Json.arr items =>
    List.intercalate [','] (items.attach.map (fun x => jsValueToString x.1))
  | Json.obj _ => "[object Object]".data
decreasing_by
  have h := List.sizeOf_lt_of_mem x.2
  simp only [Json.arr.sizeOf_spec]
  omega

/-- JS template-literal coercion of a possibly-undefined value. -/
def jsTemplateStr : Option Json → List Char
  | none => "undefined".data
  | some j => jsValueToString j

/-- Template category, the first path component under the templates dir. -/
inductive TemplateCategory where
  | networks
  | monitors
  | triggers
deriving DecidableEq, Repr

/-- Filesystem and process-spawning state the commands touch: template file
contents by category and name, the config files written, the runtime
session directories, the sessions file, and whether the monitor binary is
installed. -/
structure Fs where
  templates : TemplateCategory → List Char → Option (List Char)
  writtenFiles : List (List Char × List Char)
  sessionDirs : List (List Char)
  sessionsFile : Option (List SessionInfo)
  binaryInstalled : Bool

/-- Function `loadTemplate(category, name, vars?)`: reads the template file
(a missing file throws), substitutes when vars are supplied, then parses.
`parseJson` is the external `JSON.parse`; `none` models a parse exception. -/
def loadTemplate (parseJson : List Char → Option Json) (fs : Fs)
    (category : TemplateCategory) (name : List Char) (vars : Option TemplateVars) :
    Except Unit Json :=
  match fs.templates category name with
  | none => Except.error ()
  | some content =>
    match vars with
    | some v =>
      match parseJson (substituteVars content v) with
      | some j => Except.ok j
      | none => Except.error ()
    | none =>
      match parseJson content with
      | some j => Except.ok j
      | none => Except.error ()

/-- Runtime directory name of a session (relative to the runtime dir). -/
def sessionDirName (sessionId : List Char) : List Char :=
  "session-".data ++ sessionId

/-- Function `createSessionDir(sessionId)`: `mkdir -p` of the session's
directory tree, returning the directory path. -/
def createSessionDir (fs : Fs) (sessionId : List Char) : List Char × Fs :=
  let dir := sessionDirName sessionId
  (dir,
   if dir ∈ fs.sessionDirs then fs
   else { fs with sessionDirs := fs.sessionDirs ++ [dir] })

/-- Function `cleanupSession(sessionId)`: `rm -rf` of the session's runtime
directory. -/
def cleanupSession (fs : Fs) (sessionId : List Char) : Fs :=
  { fs with
    sessionDirs := fs.sessionDirs.filter (fun d => decide (d ≠ sessionDirName sessionId)) }

/-- Function `writeOZConfigs(sessionDir, network, monitor, trigger)`: writes
the three rendered documents. Reading `monitor.name` that is missing or not
a string makes `toLowerCase` throw, and property access on a null document
throws; both surface as the error case. `stringify` is the external
`JSON.stringify`. -/
def writeOZConfigs (stringify : Json → List Char) (fs : Fs) (sessionDir : List Char)
    (network monitor trigger : Json) : Except Unit Fs :=
  match jsGetProp network "slug".data with
  | Except.error _ => Except.error ()
  | Except.ok slugVal =>
    match jsGetProp monitor "name".data with
    | Except.error _ => Except.error ()
    | Except.ok nameVal =>
      match nameVal with
      | some (Json.str mname) =>
        match trigger with
        | Json.null => Except.error ()
        | _ =>
          let networkSlug := jsTemplateStr slugVal
          let monitorName := collapseWsToUnderscore (toLowerStr mname)
          let triggerId := jsTemplateStr ((jsKeys trigger).head?.map Json.str)
          Except.ok
            { fs with
              writtenFiles := fs.writtenFiles ++
                [(sessionDir ++ "/config/networks/".data ++ networkSlug ++ ".json".data,
                  stringify network),
                 (sessionDir ++ "/config/monitors/".data ++ monitorName ++ ".json".data,
                  stringify monitor),
                 (sessionDir ++ "/config/triggers/".data ++ triggerId ++ ".json".data,
                  stringify trigger)] }
      | _ => Except.error ()

/-! ## Runtime manager (src/lib/runtime-manager.ts) -/

/-- Function `startWithBinary(sessionId, sessionDir, tool)`: spawns the
binary (`spawnPid` is the external spawn outcome; `none` models a throw),
records the session as running with the child pid and the current time, and
registers it. The delayed two-second liveness check is asynchronous and
outside this model. -/
def startWithBinary (spawnPid : Option Nat) (now : Nat) (fs : Fs)
    (sessionId sessionDir tool : List Char) : Option SessionInfo × Fs :=
  match spawnPid with
  | none => (none, fs)
  | some pid =>
    let session : SessionInfo :=
      { id := sessionId
        tool := tool
        configPath := sessionDir
        pid := some pid
        containerId := none
        startedAt := now
        status := SessionStatus.running }
    (some session, { fs with sessionsFile := addSession fs.sessionsFile session })

/-- Function `startMonitor(sessionDir, tool, sessionId?)`: falls back to a
generated id (the empty string is falsy), downloads the binary when absent
(`downloadOk` is the external download outcome), then starts it. -/
def startMonitor (downloadOk : Bool) (spawnPid : Option Nat) (now : Nat)
    (generatedId : List Char) (fs : Fs) (sessionDir tool : List Char)
    (sessionId : Option (List Char)) : Option SessionInfo × Fs :=
  let id :=
    match sessionId with
    | some s => if s = [] then generatedId else s
    | none => generatedId
  if fs.binaryInstalled then
    startWithBinary spawnPid now fs id sessionDir tool
  else if downloadOk then
    startWithBinary spawnPid now { fs with binaryInstalled := true } id sessionDir tool
  else (none, fs)

/-- Function `stopMonitor(sessionId)`: not-found reports and returns false
without touching anything; otherwise the kill of the recorded pid is
attempted and its outcome ignored (`kill` is the external signal delivery,
erroring for a dead process), the first matching record is marked stopped,
the runtime directory is removed, and the record is dropped from the
registry. -/
def stopMonitor (kill : Nat → Except Unit Unit) (fs : Fs) (sessionId : List Char) :
    Bool × Fs :=
  match (loadSessions fs.sessionsFile).find? (fun s => s.id = sessionId) with
  | none => (false, fs)
  | some session =>
    let _killOutcome : Except Unit Unit :=
      match session.pid with
      | some p => if p ≠ 0 then kill p else Except.ok ()
      | none => Except.ok ()
    let fs1 :=
      { fs with
        sessionsFile := updateSessionStatus fs.sessionsFile sessionId SessionStatus.stopped none }
    let fs2 := cleanupSession fs1 sessionId
    let fs3 := { fs2 with sessionsFile := removeSession fs2.sessionsFile sessionId }
    (true, fs3)

/-- Function `isSessionRunning(sessionId)`: false when the session is
unknown or has no recorded pid; otherwise `ps -p pid` is consulted (`ps` is
the external process query, whose error case models both the shell throw on
a dead process and any OS failure) and the exit code compared to zero. -/
def isSessionRunning (ps : Nat → Except Unit Nat) (fs : Fs) (sessionId : List Char) :
    Bool :=
  match (loadSessions fs.sessionsFile).find? (fun s => s.id = sessionId) with
  | none => false
  | some session =>
    match session.pid with
    | some p =>
      if p ≠ 0 then
        match ps p with
        | Except.ok exitCode => exitCode == 0
        | Except.error _ => false
      else false
    | none => false

/-! ## Whale-alert start flow (src/commands/whale-alert.ts) -/

/-- Outcome of the generation-and-start phase of `whaleAlertCommand`. -/
inductive StartOutcome where
  | unknownNetwork (message : List Char)
  | generationFailed
  | startFailed
  | started (session : SessionInfo)
deriving DecidableEq, Repr

/-- Generation-and-start pipeline of `whaleAlertCommand` once the
`!networkPreset` guard has been passed: the three template renders (the
networks template name is the value of the looked-up object's slug
property), session directory creation, config writes, then the monitor
start. A throw anywhere in the block is caught and reported as a generation
failure. -/
def whaleAlertGenerate (parseJson : List Char → Option Json)
    (stringify : Json → List Char) (now : Nat) (generatedSessionId : List Char)
    (downloadOk : Bool) (spawnPid : Option Nat) (fs : Fs) (config : UserConfig)
    (vars : TemplateVars) (networksTemplateName : List Char) : StartOutcome × Fs :=
  match loadTemplate parseJson fs TemplateCategory.networks networksTemplateName none with
  | Except.error _ => (StartOutcome.generationFailed, fs)
  | Except.ok networkConfig =>
    match loadTemplate parseJson fs TemplateCategory.monitors "whale_alert".data (some vars) with
    | Except.error _ => (StartOutcome.generationFailed, fs)
    | Except.ok monitorConfig =>
      match
        loadTemplate parseJson fs TemplateCategory.triggers
          (notificationTypeStr config.notificationType) (some vars)
      with
      | Except.error _ => (StartOutcome.generationFailed, fs)
      | Except.ok triggerConfig =>
        let dirFs := createSessionDir fs generatedSessionId
        match writeOZConfigs stringify dirFs.2 dirFs.1 networkConfig monitorConfig triggerConfig with
        | Except.error _ => (StartOutcome.generationFailed, dirFs.2)
        | Except.ok fs2 =>
          match
            startMonitor downloadOk spawnPid now generatedSessionId fs2 dirFs.1
              "whale-alert".data (some generatedSessionId)
          with
          | (some session, fs3) => (StartOutcome.started session, fs3)
          | (none, fs3) => (StartOutcome.startFailed, fs3)

/-- Generation-and-start phase of `whaleAlertCommand` (the try block after
the user confirms), starting from the property read
`NETWORK_PRESETS[config.network]`. Only undefined takes the unknown-network
branch. A truthy inherited `Object.prototype` member also passes the guard:
the flow then proceeds, reading only the value's slug property — undefined,
which JS coerces to the string undefined wherever the flow uses it (the
networks template path and the substitution of the NETWORK_SLUG variable) —
and its name property for NETWORK_NAME (likewise coerced when absent).
`buildTemplateVars` reads exactly the slug and name fields of its preset
argument (its source parameter type is just those two fields), so the
remaining fields of the stand-in record below are unread placeholders. -/
def whaleAlertStartFlow (parseJson : List Char → Option Json)
    (stringify : Json → List Char) (parseTelegramJson : List Char → Option TelegramParsed)
    (now : Nat) (generatedSessionId : List Char) (downloadOk : Bool)
    (spawnPid : Option Nat) (fs : Fs) (config : UserConfig) : StartOutcome × Fs :=
  match lookupPreset config.network with
  | PresetLookup.absent =>
    (StartOutcome.unknownNetwork ("Unknown network: ".data ++ config.network), fs)
  | PresetLookup.ownPreset networkPreset =>
    whaleAlertGenerate parseJson stringify now generatedSessionId downloadOk spawnPid fs
      config (buildTemplateVars parseTelegramJson now "whale-alert".data config networkPreset)
      networkPreset.slug
  | PresetLookup.inherited jsName =>
    whaleAlertGenerate parseJson stringify now generatedSessionId downloadOk spawnPid fs
      config
      (buildTemplateVars parseTelegramJson now "whale-alert".data config
        { slug := "undefined".data
          name := (match jsName with | some n => n | none => "undefined".data)
          netType := NetType.evm
          rpcUrl := []
          networkPassphrase := none
          chainId := none
          blockTimeMs := 0
          explorerUrl := [] })
      "undefined".data

/-! ## Contract introspection (src/lib/contract-introspection.ts) -/

mutual
/-- Soroban type descriptor tree (xdr.ScSpecTypeDef), with a companion list
type so the tuple case stays structurally recursive. -/
inductive ScTy where
  | val
  | boolT
  | voidT
  | errT
  | u32
  | i32
  | u64
  | i64
  | timepoint
  | duration
  | u128
  | i128
  | u256
  | i256
  | bytes
  | stringT
  | symbol
  | address
  | optionT (inner : ScTy)
  | resultT (okType errType : ScTy)
  | vec (elem : ScTy)
  | mapT (keyType valType : ScTy)
  | tuple (valueTypes : ScTyList)
  | bytesN (n : Nat)
  | udt (name : List Char)
  | unknownT
/-- Companion list of Soroban type descriptors (the tuple's value types). -/
inductive ScTyList where
  | nil
  | cons (head : ScTy) (tail : ScTyList)
end

mutual
/-- Function `typeToString(type)`: readable rendering of a Soroban type. -/
def typeToString : ScTy → List Char
  | ScTy.val => "Val".data
  | ScTy.boolT => "bool".data
  | ScTy.voidT => "void".data
  | ScTy.errT => "Error".data
  | ScTy.u32 => "u32".data
  | ScTy.i32 => "i32".data
  | ScTy.u64 => "u64".data
  | ScTy.i64 => "i64".data
  | ScTy.timepoint => "Timepoint".data
  | ScTy.duration => "Duration".data
  | ScTy.u128 => "u128".data
  | ScTy.i128 => "i128".data
  | ScTy.u256 => "u256".data
  | ScTy.i256 => "i256".data
  | ScTy.bytes => "Bytes".data
  | ScTy.stringT => "String".data
  | ScTy.symbol => "Symbol".data
  | ScTy.address => "Address".data
  | ScTy.optionT inner => "Option<".data ++ typeToString inner ++ ">".data
  | ScTy.resultT okType errType =>
    "Result<".data ++ typeToString okType ++ ",".data ++ typeToString errType ++ ">".data
  | ScTy.vec elem => "Vec<".data ++ typeToString elem ++ ">".data
  | ScTy.mapT keyType valType =>
    "Map<".data ++ typeToString keyType ++ ",".data ++ typeToString valType ++ ">".data
  | ScTy.tuple valueTypes =>
    "(".data ++ List.intercalate ",".data (typesToStrings valueTypes) ++ ")".data
  | ScTy.bytesN n => "BytesN<".data ++ (Nat.repr n).data ++ ">".data
  | ScTy.udt name => name
  | ScTy.unknownT => "Unknown".data
/-- Renderings of each type in a type list (the mapped `typeToString`). -/
def typesToStrings : ScTyList → List (List Char)
  | ScTyList.nil => []
  | ScTyList.cons head tail => typeToString head :: typesToStrings tail
end

/-- ContractFunction record produced by the parser: types already rendered
as strings. -/
structure ContractFunction where
  name : List Char
  signature : List Char
  inputs : List (List Char × List Char)
  outputs : List (List Char)
  doc : Option (List Char)
deriving DecidableEq, Repr

/-- ContractEvent record produced by the parser. -/
structure ContractEvent where
  name : List Char
  signature : List Char
  fields : List (List Char × List Char)
  doc : Option (List Char)
deriving DecidableEq, Repr

/-- ContractSpec: the parsed functions and events. -/
structure ContractSpec where
  functions : List ContractFunction
  events : List ContractEvent
deriving DecidableEq, Repr

/-- Spec entry (xdr.ScSpecEntry): a function, a UDT struct, or one of the
other entry kinds the parser skips. -/
inductive ScSpecEntry where
  | functionV0 (name : List Char) (doc : List Char)
      (inputs : List (List Char × ScTy)) (outputs : List ScTy)
  | udtStructV0 (name : List Char) (doc : List Char)
      (fields : List (List Char × ScTy))
  | udtUnionV0
  | udtEnumV0
  | udtErrorEnumV0
  | otherEntry

/-- JS `doc.toString() || undefined`: an empty doc string becomes absent. -/
def docOrNone (doc : List Char) : Option (List Char) :=
  if doc = [] then none else some doc

/-- Function `buildFunctionSignature(name, inputs)`. -/
def buildFunctionSignature (name : List Char) (inputs : List (List Char × List Char)) :
    List Char :=
  name ++ "(".data ++ List.intercalate ",".data (inputs.map (fun i => i.2)) ++ ")".data

/-- Function `buildEventSignature(name, fields)`. -/
def buildEventSignature (name : List Char) (fields : List (List Char × List Char)) :
    List Char :=
  name ++ "(".data ++ List.intercalate ",".data (fields.map (fun f => f.2)) ++ ")".data

/-- Event-naming test applied to a UDT struct: the lower-cased name contains
the word event or equals one of the four standard token event names. -/
def looksLikeEvent (name : List Char) : Bool :=
  let lowerName := toLowerStr name
  containsPat "event".data lowerName
    || lowerName = "transfer".data
    || lowerName = "mint".data
    || lowerName = "burn".data
    || lowerName = "approval".data

/-- Loop body of `parseSpecEntries`: a function entry is pushed unless its
name starts with a double underscore; a UDT struct entry is pushed as an
event exactly when its name looks like an event; other entries are
skipped. -/
def parseSpecEntriesStep (acc : ContractSpec) (entry : ScSpecEntry) : ContractSpec :=
  match entry with
  | ScSpecEntry.functionV0 name doc inputs outputs =>
    let inputs' := inputs.map (fun i => (i.1, typeToString i.2))
    let outputs' := outputs.map typeToString
    if ¬ ("__".data.isPrefixOf name) then
      { acc with
        functions := acc.functions ++
          [{ name := name
             signature := buildFunctionSignature name inputs'
             inputs := inputs'
             outputs := outputs'
             doc := docOrNone doc }] }
    else acc
  | ScSpecEntry.udtStructV0 name doc fields =>
    if looksLikeEvent name then
      let fields' := fields.map (fun f => (f.1, typeToString f.2))
      { acc with
        events := acc.events ++
          [{ name := name
             signature := buildEventSignature name fields'
             fields := fields'
             doc := docOrNone doc }] }
    else acc
  | _ => acc

/-- Function `parseSpecEntries(specEntries)`: folds the loop body over the
entries starting from empty function and event lists. -/
def parseSpecEntries (specEntries : List ScSpecEntry) : ContractSpec :=
  specEntries.foldl parseSpecEntriesStep { functions := [], events := [] }

/-! ## Concrete inputs used by witnesses and counterexamples -/

/-- TemplateVars record with every string field empty and the Telegram
fields unassigned. -/
def varsAllEmpty : TemplateVars :=
  { NETWORK_SLUG := []
    NETWORK_NAME := []
    CONTRACT_ADDRESS := []
    CONTRACT_NAME := []
    THRESHOLD := []
    WEBHOOK_URL := []
    TRIGGER_ID := []
    TRIGGER_TYPE := []
    MONITOR_NAME := []
    TELEGRAM_TOKEN := none
    TELEGRAM_CHAT_ID := none }

/-- Template whose substituted output still contains a placeholder: two
opening braces, a complete NETWORK_SLUG placeholder, then the bare key and
two closing braces. -/
def tmplC1 : List Char :=
  ['{', '{'] ++ placeholder "NETWORK_SLUG".data ++ "NETWORK_SLUG".data ++ ['}', '}']

/-- Template for the C2 counterexample: removing the NETWORK_SLUG
placeholder welds the surrounding braces into a NETWORK_NAME placeholder. -/
def tmplC2 : List Char :=
  ['{', '{'] ++ placeholder "NETWORK_SLUG".data ++ "NETWORK_NAME".data ++ ['}', '}']

/-- Variable values for the C2 counterexample. -/
def varsC2 : TemplateVars := { varsAllEmpty with NETWORK_NAME := "y".data }

/-- Variable values whose NETWORK_SLUG value is two dollar signs, which
GetSubstitution rewrites to a single dollar. -/
def varsDollar : TemplateVars := { varsAllEmpty with NETWORK_SLUG := ['$', '$'] }

/-- Benign template for the C1 witness. -/
def tmplW1 : List Char := "hello ".data ++ placeholder "NETWORK_SLUG".data

/-- Benign variable values for the C1 witness. -/
def varsW1 : TemplateVars := { varsAllEmpty with NETWORK_SLUG := "world".data }

/-! ## Template-engine lemmas -/

/-- A scan that never sees the pattern replaces nothing, whatever subject
prefix has accumulated. -/
theorem replaceAllGo_of_not_contains (pat rep : List Char) :
    ∀ (fuel : Nat) (before s : List Char), s.length ≤ fuel →
      containsPat pat s = false → replaceAllGo pat rep fuel before s = s := by
  intro fuel
  induction fuel with
  | zero =>
    intro before s hs _
    have hnil : s = [] := List.eq_nil_of_length_eq_zero (Nat.le_zero.mp hs)
    subst hnil
    rfl
  | succ fuel ih =>
    intro before s hs hc
    cases s with
    | nil => rfl
    | cons c rest =>
      simp only [containsPat, Bool.or_eq_false_iff] at hc
      simp only [replaceAllGo, hc.1, Bool.false_eq_true, if_false]
      have := ih (before ++ [c]) rest (Nat.le_of_succ_le_succ hs) hc.2
      rw [this]

/-- String replacement of a pattern that does not occur is the identity. -/
theorem replaceAll_of_not_contains (pat rep s : List Char)
    (h : containsPat pat s = false) : replaceAll pat rep s = s :=
  replaceAllGo_of_not_contains pat rep s.length [] s le_rfl h

/-- GetSubstitution is the identity on a replacement value containing no
dollar sign. -/
theorem getSubstitution_of_no_dollar (matched before after : List Char) :
    ∀ (rep : List Char), (∀ c ∈ rep, c ≠ '$') →
      getSubstitution matched before after rep = rep := by
  intro rep
  induction rep with
  | nil => intro _; rfl
  | cons c rest ih =>
    intro h
    have hc : c ≠ '$' := h c (List.mem_cons_self c rest)
    rw [getSubstitution.eq_def]
    simp only [hc, if_false]
    rw [ih (fun d hd => h d (List.mem_cons_of_mem c hd))]

/-- Substitution of entries none of whose placeholders occur in the string
is the identity. -/
theorem substituteEntries_of_not_contains :
    ∀ (entries : List (List Char × List Char)) (s : List Char),
      (∀ kv ∈ entries, containsPat (placeholder kv.1) s = false) →
      substituteEntries s entries = s := by
  intro entries
  induction entries with
  | nil => intro s _; rfl
  | cons kv rest ih =>
    intro s h
    have h1 : replaceAll (placeholder kv.1) kv.2 s = s :=
      replaceAll_of_not_contains _ _ _ (h kv (List.mem_cons_self kv rest))
    show List.foldl _ _ (kv :: rest) = s
    rw [List.foldl_cons]
    show substituteEntries (replaceAll (placeholder kv.1) kv.2 s) rest = s
    rw [h1]
    exact ih s (fun kv' hk => h kv' (List.mem_cons_of_mem kv hk))

/-- Replacement of a single entry's placeholder coincides with the one-pass
simultaneous literal scanner restricted to that entry, at every fuel and
accumulated prefix, provided the value contains no dollar sign (so
GetSubstitution inserts it as given). -/
theorem replaceAllGo_eq_specSubstituteGo_single (k v : List Char)
    (hv : ∀ c ∈ v, c ≠ '$') :
    ∀ (fuel : Nat) (before s : List Char),
      replaceAllGo (placeholder k) v fuel before s = specSubstituteGo [(k, v)] fuel s := by
  intro fuel
  induction fuel with
  | zero => intro before s; cases s <;> rfl
  | succ fuel ih =>
    intro before s
    cases s with
    | nil => rfl
    | cons c rest =>
      simp only [replaceAllGo, specSubstituteGo, List.find?]
      cases hpre : (placeholder k).isPrefixOf (c :: rest) with
      | true =>
        simp only [if_true,
          getSubstitution_of_no_dollar (placeholder k) before
            ((c :: rest).drop (placeholder k).length) v hv, ih]
      | false => simp only [Bool.false_eq_true, if_false, ih]

/-- Replacement of a single entry's dollar-free placeholder value is exactly
one-pass simultaneous literal replacement for that entry. -/
theorem replaceAll_eq_specSubstitute_single (k v s : List Char)
    (hv : ∀ c ∈ v, c ≠ '$') :
    replaceAll (placeholder k) v s = specSubstitute [(k, v)] s :=
  replaceAllGo_eq_specSubstituteGo_single k v hv s.length [] s

/-- The substitution loop over dollar-free values is the fold of per-entry
one-pass simultaneous literal replacement in entry order. -/
theorem substituteEntries_eq_foldl_spec :
    ∀ (entries : List (List Char × List Char)) (s : List Char),
      (∀ kv ∈ entries, ∀ c ∈ kv.2, c ≠ '$') →
      substituteEntries s entries =
        entries.foldl (fun r kv => specSubstitute [kv] r) s := by
  intro entries
  induction entries with
  | nil => intro s _; rfl
  | cons kv rest ih =>
    intro s h
    show List.foldl _ _ (kv :: rest) = _
    rw [List.foldl_cons, List.foldl_cons]
    show substituteEntries (replaceAll (placeholder kv.1) kv.2 s) rest = _
    rw [ih _ (fun kv' hk => h kv' (List.mem_cons_of_mem kv hk)),
      replaceAll_eq_specSubstitute_single kv.1 kv.2 s
        (h kv (List.mem_cons_self kv rest))]

/-! ## Claim C1: idempotence of substitution -/

/-- C1 counterexample: in `tmplC1` no variable value contains a double
opening brace (every value is empty), yet substitution is not idempotent —
removing the NETWORK_SLUG placeholder welds the surrounding braces into a
fresh NETWORK_SLUG placeholder, which a second run then removes. -/
theorem substituteVars_not_idempotent_onC1 :
    (∀ kv ∈ varsEntries varsAllEmpty, containsPat ['{', '{'] kv.2 = false) ∧
    substituteVars (substituteVars tmplC1 varsAllEmpty) varsAllEmpty
      ≠ substituteVars tmplC1 varsAllEmpty := by
  decide

/-- C1 (amended): substitution is idempotent for every template and variable
map whose substituted output contains no occurrence of any map key's
placeholder (in particular the value condition of the original claim is not
sufficient, but this output condition is). -/
theorem substituteVars_idempotent_of_no_residual (t : List Char) (vars : TemplateVars)
    (h : ∀ kv ∈ varsEntries vars,
      containsPat (placeholder kv.1) (substituteVars t vars) = false) :
    substituteVars (substituteVars t vars) vars = substituteVars t vars :=
  substituteEntries_of_not_contains (varsEntries vars) (substituteVars t vars) h

/-- C1 witness: a benign template and variable map satisfying the amended
hypothesis, on which idempotence holds. -/
theorem substituteVars_idempotent_witness :
    (∀ kv ∈ varsEntries varsW1,
      containsPat (placeholder kv.1) (substituteVars tmplW1 varsW1) = false) ∧
    substituteVars (substituteVars tmplW1 varsW1) varsW1 = substituteVars tmplW1 varsW1 :=
  ⟨by decide, substituteVars_idempotent_of_no_residual tmplW1 varsW1 (by decide)⟩

/-! ## Claim C2: literal simultaneous replacement -/

/-- C2 counterexample: `substituteVars` is not literal replacement of every
placeholder occurrence with all other template characters unchanged, for
two independent reasons exhibited here. On `tmplC2` the sequential per-key
passes produce the single character y, while simultaneous replacement of
the template's only placeholder occurrence leaves a literal NETWORK_NAME
placeholder; and a value of two dollar signs is inserted as a single dollar
(GetSubstitution), not exactly as given. -/
theorem substituteVars_not_simultaneous_onC2 :
    substituteVars tmplC2 varsC2 = ['y'] ∧
    specSubstitute (varsEntries varsC2) tmplC2 = placeholder "NETWORK_NAME".data ∧
    substituteVars tmplC2 varsC2 ≠ specSubstitute (varsEntries varsC2) tmplC2 ∧
    substituteVars (placeholder "NETWORK_SLUG".data) varsDollar = ['$'] := by
  decide

/-- C2 (amended): substitution is sequential, one key at a time in map
insertion order, each pass replacing every occurrence of that key's
placeholder in the previous pass's output with the GetSubstitution
expansion of the key's value; when no value contains a dollar sign,
GetSubstitution is the identity, so each key's pass is exactly one-pass
literal replacement of every occurrence of that key's placeholder in the
previous pass's output, leaving that string's other characters unchanged. -/
theorem substituteVars_eq_sequential_passes (t : List Char) (vars : TemplateVars)
    (h : ∀ kv ∈ varsEntries vars, ∀ c ∈ kv.2, c ≠ '$') :
    substituteVars t vars =
      (varsEntries vars).foldl (fun r kv => specSubstitute [kv] r) t :=
  substituteEntries_eq_foldl_spec (varsEntries vars) t h

/-- C2 witness: on the dollar-free map `varsW1`, substitution agrees with
the fold of per-key one-pass literal replacement. -/
theorem substituteVars_eq_sequential_passes_witness :
    (∀ kv ∈ varsEntries varsW1, ∀ c ∈ kv.2, c ≠ '$') ∧
    substituteVars tmplW1 varsW1 =
      (varsEntries varsW1).foldl (fun r kv => specSubstitute [kv] r) tmplW1 :=
  ⟨by decide, substituteVars_eq_sequential_passes tmplW1 varsW1 (by decide)⟩

/-! ## Claim C3: registry add and remove -/

/-- Session record used by registry witnesses. -/
def sessA : SessionInfo :=
  { id := "abc".data
    tool := "whale-alert".data
    configPath := "session-abc".data
    pid := some 42
    containerId := none
    startedAt := 1700000000000
    status := SessionStatus.running }

/-- Second session record, with a different id, used by registry
witnesses. -/
def sessB : SessionInfo :=
  { id := "zzz".data
    tool := "whale-alert".data
    configPath := "session-zzz".data
    pid := none
    containerId := none
    startedAt := 1700000001000
    status := SessionStatus.running }

/-- C3 counterexample: adding a record to a registry that already contains
an equal record leaves it present twice, not exactly once — `addSession`
pushes unconditionally. -/
theorem addSession_not_exactly_once :
    (loadSessions (addSession (some [sessA]) sessA)).count sessA ≠ 1 := by
  decide

/-- C3 (amended): `addSession` followed by `loadSessions` contains the
added record exactly one more time than before (hence exactly once when it
was not already present), and `removeSession` followed by `loadSessions`
contains no record with the removed id. -/
theorem addSession_removeSession_loadSessions (file : Option (List SessionInfo))
    (session : SessionInfo) (sessionId : List Char) :
    (loadSessions (addSession file session)).count session
      = (loadSessions file).count session + 1 ∧
    ∀ r ∈ loadSessions (removeSession file sessionId), r.id ≠ sessionId := by
  constructor
  · simp [addSession, saveSessions, loadSessions]
  · intro r hr
    simp only [removeSession, saveSessions, loadSessions, List.mem_filter,
      decide_eq_true_eq] at hr
    exact hr.2

/-- C3 witness: on a registry holding only `sessB`, adding `sessA` yields
one occurrence, and `sessB` survives removal of the id abc with a different
id. -/
theorem addSession_removeSession_witness :
    (loadSessions (addSession (some [sessB]) sessA)).count sessA
      = (loadSessions (some [sessB])).count sessA + 1 ∧
    sessB.id ≠ "abc".data :=
  ⟨(addSession_removeSession_loadSessions (some [sessB]) sessA "abc".data).1,
   (addSession_removeSession_loadSessions (some [sessB]) sessA "abc".data).2 sessB
     (by decide)⟩

/-! ## Claim C4: user config round-trip -/

/-- C4: saving a UserConfig for a tool and reloading it for the same tool
name returns the saved record. -/
theorem loadUserConfig_saveUserConfig (store : ConfigStore) (tool : List Char)
    (config : UserConfig) :
    loadUserConfig (saveUserConfig store tool config) tool = some config := by
  simp [loadUserConfig, saveUserConfig]

/-! ## Claim C5: unknown network slug in the start flow -/

/-- Empty filesystem state used by command witnesses. -/
def fsEmpty : Fs :=
  { templates := fun _ _ => none
    writtenFiles := []
    sessionDirs := []
    sessionsFile := none
    binaryInstalled := false }

/-- JSON parser that always fails, used by witnesses. -/
def parseJsonNone : List Char → Option Json := fun _ => none

/-- JSON serialiser that returns the empty string, used by witnesses. -/
def stringifyEmpty : Json → List Char := fun _ => []

/-- Telegram credential parser that always fails, used by witnesses. -/
def parseTelegramNone : List Char → Option TelegramParsed := fun _ => none

/-- UserConfig naming a network slug that is not a preset key. -/
def cfgUnknownNet : UserConfig :=
  { network := "base_mainnet".data
    contractAddress := "CABC".data
    contractName := none
    threshold := "1000000".data
    notificationType := NotificationType.discord
    webhookUrl := "https://example.com/hook".data }

/-- UserConfig naming toString: an `Object.prototype` property name that is
not a key of NETWORK_PRESETS. -/
def cfgToString : UserConfig := { cfgUnknownNet with network := "toString".data }

/-- C5 counterexample: the slug toString is not a key of NETWORK_PRESETS,
yet the flow does not fail with the unknown-network message — the property
read yields the truthy inherited `Object.prototype.toString`, the guard is
passed, and the flow fails later (here while loading the network template
undefined.json), reporting a generation failure instead. -/
theorem whaleAlertStartFlow_inherited_slug_cex :
    "toString".data ∉ NETWORK_PRESETS.map Prod.fst ∧
    (whaleAlertStartFlow parseJsonNone stringifyEmpty parseTelegramNone 0 "sid00000".data
        false none fsEmpty cfgToString).1 = StartOutcome.generationFailed ∧
    (whaleAlertStartFlow parseJsonNone stringifyEmpty parseTelegramNone 0 "sid00000".data
        false none fsEmpty cfgToString).2 = fsEmpty :=
  ⟨by decide, by decide, rfl⟩

/-- C5 (amended): when the config's network slug is neither a key of
NETWORK_PRESETS nor the name of a property inherited from
`Object.prototype` — so the property read is undefined — the start flow
stops with the explicit unknown-network message and the filesystem is
untouched: no session directory is created and no network, monitor or
trigger config document is written. (For an inherited name such as
toString the guard is skipped and the flow instead proceeds to the
template loads.) -/
theorem whaleAlertStartFlow_unknown_network (parseJson : List Char → Option Json)
    (stringify : Json → List Char) (parseTelegramJson : List Char → Option TelegramParsed)
    (now : Nat) (generatedSessionId : List Char) (downloadOk : Bool)
    (spawnPid : Option Nat) (fs : Fs) (config : UserConfig)
    (h : lookupPreset config.network = PresetLookup.absent) :
    whaleAlertStartFlow parseJson stringify parseTelegramJson now generatedSessionId
        downloadOk spawnPid fs config
      = (StartOutcome.unknownNetwork ("Unknown network: ".data ++ config.network), fs) ∧
    (whaleAlertStartFlow parseJson stringify parseTelegramJson now generatedSessionId
        downloadOk spawnPid fs config).2.sessionDirs = fs.sessionDirs ∧
    (whaleAlertStartFlow parseJson stringify parseTelegramJson now generatedSessionId
        downloadOk spawnPid fs config).2.writtenFiles = fs.writtenFiles := by
  simp [whaleAlertStartFlow, h]

/-- C5 witness: the flow run with the unknown slug base_mainnet on an empty
filesystem. -/
theorem whaleAlertStartFlow_unknown_network_witness :
    whaleAlertStartFlow parseJsonNone stringifyEmpty parseTelegramNone 0 "sid00000".data
        false none fsEmpty cfgUnknownNet
      = (StartOutcome.unknownNetwork ("Unknown network: ".data ++ cfgUnknownNet.network),
         fsEmpty) ∧
    (whaleAlertStartFlow parseJsonNone stringifyEmpty parseTelegramNone 0 "sid00000".data
        false none fsEmpty cfgUnknownNet).2.sessionDirs = fsEmpty.sessionDirs ∧
    (whaleAlertStartFlow parseJsonNone stringifyEmpty parseTelegramNone 0 "sid00000".data
        false none fsEmpty cfgUnknownNet).2.writtenFiles = fsEmpty.writtenFiles :=
  whaleAlertStartFlow_unknown_network parseJsonNone stringifyEmpty parseTelegramNone 0
    "sid00000".data false none fsEmpty cfgUnknownNet (by decide)

/-! ## Claims C6 and C8: stopMonitor -/

/-- Rewriting the first record with a given id commutes with looking that id
up, provided the rewrite preserves the id. -/
theorem updateFirst_find? (sessions : List SessionInfo) (sessionId : List Char)
    (f : SessionInfo → SessionInfo) (session : SessionInfo)
    (hf : ∀ s, (f s).id = s.id)
    (h : sessions.find? (fun s => s.id = sessionId) = some session) :
    (updateFirst sessions sessionId f).find? (fun s => s.id = sessionId)
      = some (f session) := by
  induction sessions with
  | nil => simp [List.find?] at h
  | cons s rest ih =>
    by_cases hs : s.id = sessionId
    · rw [List.find?_cons_of_pos _ (by simpa using hs)] at h
      have hss : s = session := by injection h
      subst hss
      simp only [updateFirst, if_pos hs]
      exact List.find?_cons_of_pos _ (by simp [hf s, hs])
    · rw [List.find?_cons_of_neg _ (by simpa using hs)] at h
      simp only [updateFirst, if_neg hs]
      rw [List.find?_cons_of_neg _ (by simpa using hs)]
      exact ih h

/-- External kill that always fails, modelling a process id with no live
process behind it. -/
def killDead : Nat → Except Unit Unit := fun _ => Except.error ()

/-- Filesystem state holding the running session `sessA` and its runtime
directory. -/
def fsC6 : Fs :=
  { templates := fun _ _ => none
    writtenFiles := []
    sessionDirs := [sessionDirName "abc".data]
    sessionsFile := some [sessA]
    binaryInstalled := true }

/-- C6: stopping a registered session whose recorded pid is dead still
returns true, marks the (first) matching record stopped in the intermediate
registry write, deletes the session's runtime directory and removes every
record with the id from the final registry. -/
theorem stopMonitor_dead_process (kill : Nat → Except Unit Unit) (fs : Fs)
    (sessionId : List Char) (session : SessionInfo) (p : Nat)
    (hfind : (loadSessions fs.sessionsFile).find? (fun s => s.id = sessionId)
      = some session)
    (hpid : session.pid = some p)
    (hdead : kill p = Except.error ()) :
    (stopMonitor kill fs sessionId).1 = true ∧
    (loadSessions
        (updateSessionStatus fs.sessionsFile sessionId SessionStatus.stopped none)).find?
        (fun s => s.id = sessionId) = some { session with status := SessionStatus.stopped } ∧
    sessionDirName sessionId ∉ (stopMonitor kill fs sessionId).2.sessionDirs ∧
    ∀ s ∈ loadSessions (stopMonitor kill fs sessionId).2.sessionsFile, s.id ≠ sessionId := by
  have hupd : updateSessionStatus fs.sessionsFile sessionId SessionStatus.stopped none
      = saveSessions (updateFirst (loadSessions fs.sessionsFile) sessionId
          (fun s => applyExtra { s with status := SessionStatus.stopped } none)) := by
    simp only [updateSessionStatus]
    rw [hfind]
  have hfst : (stopMonitor kill fs sessionId).1 = true := by
    simp only [stopMonitor]
    rw [hfind]
  have hdirs : (stopMonitor kill fs sessionId).2.sessionDirs
      = fs.sessionDirs.filter (fun d => decide (d ≠ sessionDirName sessionId)) := by
    simp only [stopMonitor]
    rw [hfind]
    rfl
  have hfile : (stopMonitor kill fs sessionId).2.sessionsFile
      = some
          ((loadSessions
              (updateSessionStatus fs.sessionsFile sessionId SessionStatus.stopped none)).filter
            (fun s => decide (s.id ≠ sessionId))) := by
    simp only [stopMonitor]
    rw [hfind]
    rfl
  refine ⟨hfst, ?_, ?_, ?_⟩
  · rw [hupd]
    exact updateFirst_find? (loadSessions fs.sessionsFile) sessionId
      (fun s => applyExtra { s with status := SessionStatus.stopped } none) session
      (fun s => rfl) hfind
  · rw [hdirs]
    simp [List.mem_filter]
  · intro s hs
    rw [hfile] at hs
    simp only [loadSessions, List.mem_filter, decide_eq_true_eq] at hs
    exact hs.2

/-- C6 witness: `sessA` is registered with pid 42, which `killDead`
reports dead; stopping it succeeds and cleans up. -/
theorem stopMonitor_dead_process_witness :
    (stopMonitor killDead fsC6 "abc".data).1 = true ∧
    (loadSessions
        (updateSessionStatus fsC6.sessionsFile "abc".data SessionStatus.stopped none)).find?
        (fun s => s.id = "abc".data) = some { sessA with status := SessionStatus.stopped } ∧
    sessionDirName "abc".data ∉ (stopMonitor killDead fsC6 "abc".data).2.sessionDirs ∧
    ∀ s ∈ loadSessions (stopMonitor killDead fsC6 "abc".data).2.sessionsFile,
      s.id ≠ "abc".data :=
  stopMonitor_dead_process killDead fsC6 "abc".data sessA 42 (by decide) (by decide) rfl

/-- C8: stopping an unknown session id reports and returns false with the
whole filesystem — in particular the session registry — unchanged. -/
theorem stopMonitor_unknown_session (kill : Nat → Except Unit Unit) (fs : Fs)
    (sessionId : List Char)
    (h : (loadSessions fs.sessionsFile).find? (fun s => s.id = sessionId) = none) :
    stopMonitor kill fs sessionId = (false, fs) := by
  simp [stopMonitor, h]

/-- C8 witness: the registry holds only `sessA`, so stopping the id nope is
a no-op returning false. -/
theorem stopMonitor_unknown_session_witness :
    stopMonitor killDead fsC6 "nope".data = (false, fsC6) :=
  stopMonitor_unknown_session killDead fsC6 "nope".data (by decide)

/-! ## Claim C7: isSessionRunning lookup failures -/

/-- External process query that always fails, used by the C7 witness. -/
def psError : Nat → Except Unit Nat := fun _ => Except.error ()

/-- C7: `isSessionRunning` answers false on every lookup failure — an id
with no record, a record without a pid, or an OS process query that
raises. -/
theorem isSessionRunning_false_on_failure (ps : Nat → Except Unit Nat) (fs : Fs)
    (sessionId : List Char)
    (h : (loadSessions fs.sessionsFile).find? (fun s => s.id = sessionId) = none
      ∨ (∃ session,
          (loadSessions fs.sessionsFile).find? (fun s => s.id = sessionId) = some session
            ∧ session.pid = none)
      ∨ (∃ session p,
          (loadSessions fs.sessionsFile).find? (fun s => s.id = sessionId) = some session
            ∧ session.pid = some p ∧ ps p = Except.error ())) :
    isSessionRunning ps fs sessionId = false := by
  rcases h with h | ⟨session, hfind, hpid⟩ | ⟨session, p, hfind, hpid, herr⟩
  · simp [isSessionRunning, h]
  · simp [isSessionRunning, hfind, hpid]
  · by_cases hp : p = 0
    · simp [isSessionRunning, hfind, hpid, hp]
    · simp [isSessionRunning, hfind, hpid, hp, herr]

/-- C7 witness: an empty registry makes every lookup fail, so the liveness
check answers false. -/
theorem isSessionRunning_false_witness :
    isSessionRunning psError fsEmpty "abc".data = false :=
  isSessionRunning_false_on_failure psError fsEmpty "abc".data (Or.inl (by decide))

/-! ## Claim C9: unparseable Telegram credentials -/

/-- Small network preset used by the C9 witness. -/
def presetW : NetworkPreset :=
  { slug := "stellar_mainnet".data
    name := "Stellar Mainnet".data
    netType := NetType.stellar
    rpcUrl := "rpc".data
    networkPassphrase := none
    chainId := none
    blockTimeMs := 5000
    explorerUrl := "exp".data }

/-- Telegram UserConfig whose credential string is not JSON. -/
def cfgTelegramBad : UserConfig :=
  { network := "stellar_mainnet".data
    contractAddress := "CABCDEFGHIJKLMNOP".data
    contractName := some "Token".data
    threshold := "5".data
    notificationType := NotificationType.telegram
    webhookUrl := "not json".data }

/-- C9: with notification type telegram and a credential string the JSON
parser rejects, `buildTemplateVars` still returns (the swallowed catch),
leaves both Telegram variables unassigned, and the variable object's
entries are exactly the nine populated variables. -/
theorem buildTemplateVars_telegram_unparseable
    (parseTelegramJson : List Char → Option TelegramParsed) (now : Nat)
    (tool : List Char) (cfg : UserConfig) (preset : NetworkPreset)
    (hnt : cfg.notificationType = NotificationType.telegram)
    (hparse : parseTelegramJson cfg.webhookUrl = none) :
    (buildTemplateVars parseTelegramJson now tool cfg preset).TELEGRAM_TOKEN = none ∧
    (buildTemplateVars parseTelegramJson now tool cfg preset).TELEGRAM_CHAT_ID = none ∧
    (varsEntries (buildTemplateVars parseTelegramJson now tool cfg preset)).map Prod.fst
      = ["NETWORK_SLUG".data, "NETWORK_NAME".data, "CONTRACT_ADDRESS".data,
         "CONTRACT_NAME".data, "THRESHOLD".data, "WEBHOOK_URL".data, "TRIGGER_ID".data,
         "TRIGGER_TYPE".data, "MONITOR_NAME".data] := by
  simp [buildTemplateVars, hnt, hparse, varsEntries]

/-- C9 witness: the failing parser on the concrete telegram config. -/
theorem buildTemplateVars_telegram_unparseable_witness :
    (buildTemplateVars parseTelegramNone 7 "whale-alert".data cfgTelegramBad
        presetW).TELEGRAM_TOKEN = none ∧
    (buildTemplateVars parseTelegramNone 7 "whale-alert".data cfgTelegramBad
        presetW).TELEGRAM_CHAT_ID = none ∧
    (varsEntries (buildTemplateVars parseTelegramNone 7 "whale-alert".data cfgTelegramBad
        presetW)).map Prod.fst
      = ["NETWORK_SLUG".data, "NETWORK_NAME".data, "CONTRACT_ADDRESS".data,
         "CONTRACT_NAME".data, "THRESHOLD".data, "WEBHOOK_URL".data, "TRIGGER_ID".data,
         "TRIGGER_TYPE".data, "MONITOR_NAME".data] :=
  buildTemplateVars_telegram_unparseable parseTelegramNone 7 "whale-alert".data
    cfgTelegramBad presetW rfl rfl

/-! ## Claim C10: spec entry filtering -/

/-- Preservation of the filtering invariant by one loop step: no emitted
function name starts with a double underscore, and every emitted event
passes the event-naming test. -/
theorem parseSpecEntriesStep_invariant (acc : ContractSpec) (entry : ScSpecEntry)
    (hF : ∀ f ∈ acc.functions, "__".data.isPrefixOf f.name = false)
    (hE : ∀ e ∈ acc.events, looksLikeEvent e.name = true) :
    (∀ f ∈ (parseSpecEntriesStep acc entry).functions,
      "__".data.isPrefixOf f.name = false) ∧
    (∀ e ∈ (parseSpecEntriesStep acc entry).events, looksLikeEvent e.name = true) := by
  cases entry with
  | functionV0 name doc inputs outputs =>
    by_cases hname : "__".data.isPrefixOf name = true
    · simp only [parseSpecEntriesStep, hname, not_true_eq_false, if_false]
      exact ⟨hF, hE⟩
    · have hname' : "__".data.isPrefixOf name = false := by
        cases h : "__".data.isPrefixOf name
        · rfl
        · exact absurd h hname
      simp only [parseSpecEntriesStep, hname', Bool.false_eq_true, not_false_eq_true,
        if_true]
      constructor
      · intro f hf
        rcases List.mem_append.mp hf with hf | hf
        · exact hF f hf
        · rcases List.mem_singleton.mp hf with rfl
          exact hname'
      · exact hE
  | udtStructV0 name doc fields =>
    by_cases hname : looksLikeEvent name = true
    · simp only [parseSpecEntriesStep, hname, if_true]
      constructor
      · exact hF
      · intro e he
        rcases List.mem_append.mp he with he | he
        · exact hE e he
        · rcases List.mem_singleton.mp he with rfl
          exact hname
    · simp only [parseSpecEntriesStep, hname, if_false]
      exact ⟨hF, hE⟩
  | udtUnionV0 => exact ⟨hF, hE⟩
  | udtEnumV0 => exact ⟨hF, hE⟩
  | udtErrorEnumV0 => exact ⟨hF, hE⟩
  | otherEntry => exact ⟨hF, hE⟩

/-- Folding the loop preserves the filtering invariant from any starting
accumulator. -/
theorem parseSpecEntries_fold_invariant :
    ∀ (entries : List ScSpecEntry) (acc : ContractSpec),
      (∀ f ∈ acc.functions, "__".data.isPrefixOf f.name = false) →
      (∀ e ∈ acc.events, looksLikeEvent e.name = true) →
      (∀ f ∈ (entries.foldl parseSpecEntriesStep acc).functions,
        "__".data.isPrefixOf f.name = false) ∧
      (∀ e ∈ (entries.foldl parseSpecEntriesStep acc).events,
        looksLikeEvent e.name = true) := by
  intro entries
  induction entries with
  | nil => intro acc hF hE; exact ⟨hF, hE⟩
  | cons entry rest ih =>
    intro acc hF hE
    have hstep := parseSpecEntriesStep_invariant acc entry hF hE
    simpa using ih (parseSpecEntriesStep acc entry) hstep.1 hstep.2

/-- C10: `parseSpecEntries` never returns a function whose name starts with
a double underscore, and it includes a UDT struct as an event only when the
lower-cased struct name contains the word event or equals transfer, mint,
burn or approval. -/
theorem parseSpecEntries_filtering (entries : List ScSpecEntry) :
    (∀ f ∈ (parseSpecEntries entries).functions,
      "__".data.isPrefixOf f.name = false) ∧
    (∀ e ∈ (parseSpecEntries entries).events, looksLikeEvent e.name = true) :=
  parseSpecEntries_fold_invariant entries { functions := [], events := [] }
    (by intro f hf; simp at hf) (by intro e he; simp at he)

/-- Spec entries used by the C10 witness: one plain function and one
event-shaped struct. -/
def entriesC10 : List ScSpecEntry :=
  [ScSpecEntry.functionV0 "transfer".data [] [("from".data, ScTy.address)] [ScTy.voidT],
   ScSpecEntry.udtStructV0 "TransferEvent".data [] [("amount".data, ScTy.i128)]]

/-- Parsed function the C10 witness exhibits. -/
def funcC10 : ContractFunction :=
  { name := "transfer".data
    signature := "transfer(Address)".data
    inputs := [("from".data, "Address".data)]
    outputs := ["void".data]
    doc := none }

/-- Parsed event the C10 witness exhibits. -/
def eventC10 : ContractEvent :=
  { name := "TransferEvent".data
    signature := "TransferEvent(i128)".data
    fields := [("amount".data, "i128".data)]
    doc := none }

/-- C10 witness: the concrete parse of `entriesC10` contains `funcC10` and
`eventC10`, and both satisfy the filtering properties. -/
theorem parseSpecEntries_filtering_witness :
    "__".data.isPrefixOf funcC10.name = false ∧
    looksLikeEvent eventC10.name = true :=
  ⟨(parseSpecEntries_filtering entriesC10).1 funcC10 (by decide),
   (parseSpecEntries_filtering entriesC10).2 eventC10 (by decide)⟩
